import Mathlib

/-!
# Verification of the dcube-conv ingestion/resolution pipeline

Shallow embedding of the core of the `dcube_conv` repository:

* `dcube_conv/model/__init__.py` — `Location` with its distance and
  proximity primitives;
* `dcube_conv/station_mapper.py` — `StationMapper` with nearest-station
  search and channel-map derivation;
* `dcube_conv/stations.py` — `CubeSite` / `CubeSites`: the site
  resolution engine (add-or-merge, site lookup, end-time back-fill,
  record processing);
* `dcube_conv/loader.py` — the producer/consumer loader: file scanning
  with completion-log exclusion, and the decode queue, modelled as a
  transition system.

Floats of the source are modelled as rationals (`ℚ`), datetimes as
integers (`ℤ`, seconds).  The geodetic primitives that the source takes
from the external `pyrocko.orthodrome` library
(`distance_accurate50m_numpy`, `geodetic_to_ecef`) are kept abstract:
the functions that call them take the geodesy as an explicit parameter,
exactly at the call sites the Python code has.
-/

/-- Surface-distance oracle: stands for the external
`pyrocko.orthodrome.distance_accurate50m_numpy(lat1, lon1, lat2, lon2)`
(an external collaborator of the repository), as a function of the two
locations. -/
abbrev SDist (Loc : Type) := Loc → Loc → ℚ

/-- ECEF-conversion oracle: stands for the external
`pyrocko.orthodrome.geodetic_to_ecef(lat, lon, alt)`. -/
abbrev Ecef := ℚ → ℚ → ℚ → ℚ × ℚ × ℚ

/-- `Location` (model/__init__.py, class Location): geodetic position
`{lat, lon, elevation = 0.0, depth = 0.0}`. -/
structure Location where
  lat : ℚ
  lon : ℚ
  elevation : ℚ := 0
  depth : ℚ := 0
deriving DecidableEq, Repr

namespace Location

/-- `Location.effective_elevation`: `self.elevation - self.depth`. -/
def effective_elevation (self : Location) : ℚ :=
  self.elevation - self.depth

/-- `Location.surface_distance_to` delegates to the external geodesy
oracle `sdist` (the source calls `od.distance_accurate50m_numpy`). -/
def surface_distance_to (sdist : SDist Location) (self other : Location) : ℚ :=
  sdist self other

/-- Square of `Location.distance_to` (model/__init__.py lines 127-139).
The source computes

    sx, sy, sz = od.geodetic_to_ecef(self.lat, self.lon, self.effective_elevation)
    ox, oy, oz = od.geodetic_to_ecef(self.lat, self.lon, other.effective_elevation)
    return math.sqrt((sx - ox) ** 2 + (sy - oy) ** 2 + (sz - oz) ** 2)

Note that *both* calls pass `self.lat, self.lon`; the second uses only
`other`'s effective elevation.  We embed the radicand (the sum of
squares); the source's return value is its square root, which is zero
exactly when the radicand is zero and strictly monotone in it. -/
def distance_sq (ecef : Ecef) (self other : Location) : ℚ :=
  let s := ecef self.lat self.lon self.effective_elevation
  let o := ecef self.lat self.lon other.effective_elevation
  (s.1 - o.1) ^ 2 + (s.2.1 - o.2.1) ^ 2 + (s.2.2 - o.2.2) ^ 2

/-- `Location.is_close(other, distance_threshold_meters=25.0)`:
`self.surface_distance_to(other) < distance_threshold_meters`. -/
def is_close (sdist : SDist Location) (self other : Location)
    (distance_threshold_meters : ℚ) : Bool :=
  decide (surface_distance_to sdist self other < distance_threshold_meters)

/-- Default of the `distance_threshold_meters` argument of `is_close`,
and of `StationMapper.distance_threshold`. -/
def DISTANCE_THRESHOLD : ℚ := 25

end Location

/-! ## Station directory (`dcube_conv/station_mapper.py`) -/

abbrev SensorID := String

abbrev ChannelID := String

abbrev ChannelMapping := List (ChannelID × ChannelID)

/-- `StationOrientationOverwrite` (station_mapper.py lines 43-45). -/
structure StationOrientationOverwrite where
  dip : ℚ := 0
  azimuth : ℚ := 0
deriving DecidableEq, Repr

/-- `Station` (station_mapper.py, class Station): a `Location` carrying a
name, a sensor type and an up-to-3-letter sub-location code.  The Python
class inherits from `Location`; we embed the inherited part as the field
`loc`.  The `_parent` back-pointer is replaced by passing the mapper
explicitly where the source resolves it. -/
structure Station where
  loc : Location
  name : String
  seismic_sensor : String
  location : String := ""
deriving DecidableEq, Repr

/-- The literal `channel_map` default of `StationMapper`
(station_mapper.py lines 94-110). -/
def default_channel_map : List (SensorID × ChannelMapping) :=
  [ ("4.5hz", [("p0", "EPZ"), ("p1", "EPN"), ("p2", "EPE")]),
    ("mark",  [("p0", "EHZ"), ("p1", "EHN"), ("p2", "EHE")]),
    ("bb",    [("p0", "HHZ"), ("p1", "HHN"), ("p2", "HHE")]) ]

/-- `StationMapper` (station_mapper.py, class StationMapper).  The
geopackage path is omitted (file I/O); `_features` is the catalog loaded
by `prepare`/`load_geopackage`, modelled as an explicit field.
Python dicts keyed by strings are modelled as association lists looked
up by first match. -/
structure StationMapper where
  distance_threshold : ℚ := Location.DISTANCE_THRESHOLD
  channel_map : List (SensorID × ChannelMapping) := default_channel_map
  station_orientation_overwrites : List (String × StationOrientationOverwrite) := []
  features : List Station := []

namespace StationMapper

/-- `out_channel.endswith(c)` for the single-letter needles of
`get_channel_map`: the last character of the channel id equals `c`. -/
def channel_ends_with (s : String) (c : Char) : Bool :=
  s.data.getLast? == some c

/-- `out_channel[:-1]`: the channel id without its last character. -/
def channel_drop_last (s : String) : String :=
  ⟨s.data.dropLast⟩

/-- `StationMapper.get_channel_map(sensor, station)` (station_mapper.py
lines 115-124): copy the sensor's map; if the station has an orientation
overwrite, rewrite every mapped output channel ending in "N" to end in
"1" and every one ending in "E" to end in "2".  A sensor id absent from
`channel_map` raises `KeyError` in Python, modelled as `none`. -/
def get_channel_map (m : StationMapper) (sensor : SensorID) (station : String) :
    Option ChannelMapping :=
  (m.channel_map.lookup sensor).map fun sensor_map =>
    if (m.station_orientation_overwrites.lookup station).isSome then
      sensor_map.map fun p =>
        (p.1,
          if channel_ends_with p.2 'N' then channel_drop_last p.2 ++ "1"
          else if channel_ends_with p.2 'E' then channel_drop_last p.2 ++ "2"
          else p.2)
    else sensor_map

/-- `StationMapper.get_station(site)` (station_mapper.py lines 160-168):
surface distance from every catalog entry to the query, `min()` of the
distance list (raises `ValueError` on an empty catalog, modelled as
`Except.error`), `None` when the minimum exceeds `distance_threshold`,
otherwise the feature at `distances.index(min_distance)` — the first
entry attaining the minimum. -/
def get_station (m : StationMapper) (sdist : SDist Location) (site : Location) :
    Except String (Option Station) :=
  let distances := m.features.map fun feature =>
    Location.surface_distance_to sdist feature.loc site
  match distances.min? with
  | none => .error "min() arg is an empty sequence"
  | some min_distance =>
    if min_distance > m.distance_threshold then .ok none
    else .ok (m.features.get? (distances.findIdx fun d => decide (d = min_distance)))

end StationMapper

/-- Sample station used by concrete witnesses. -/
def sampleStation1 : Station :=
  { loc := { lat := 50, lon := 6, elevation := 100, depth := 0 },
    name := "ST01", seismic_sensor := "4.5hz", location := "" }

/-- Second sample station used by concrete witnesses. -/
def sampleStation2 : Station :=
  { loc := { lat := 51, lon := 7, elevation := 200, depth := 0 },
    name := "ST02", seismic_sensor := "mark", location := "" }

/-- A concrete orientation overwrite used by witnesses. -/
def sampleOverwrite : StationOrientationOverwrite :=
  { dip := 0, azimuth := 90 }

/-- A concrete two-station catalog used by witnesses. -/
def sampleMapper : StationMapper :=
  { features := [sampleStation1, sampleStation2] }

/-! ## Site resolution engine (`dcube_conv/stations.py`) -/

abbrev CubeId := String

/-- Modelled from the spec: `DATETIME_MAX` is imported by stations.py
from `dcube_conv.utils`, but the snapshot of utils.py does not define
it; the spec describes it as the "open-ended sentinel" end time used by
the back-fill.  We model it as the largest Python datetime
(9999-12-31T23:59:59Z) in epoch seconds. -/
def DATETIME_MAX : ℤ := 253402300799

/-- The slice of `CubeTraces` (model/__init__.py, class CubeTraces) that
the resolver reads and rewrites: identifier codes, channel codes,
sampling rate and time range of the traces, and the decoded GPS fix.
`gps = none` models `coordinates_from_gps` yielding NaN or exactly-zero
latitude/longitude (the rejection test of
`CubeSite.from_datacube_trace`); `gps = some loc` a usable fix. -/
structure CubeRecord where
  path : String
  cube_id : CubeId
  network : String
  station : String
  location : String
  channels : List ChannelID
  sampling_rate : ℚ
  start_time : ℤ
  end_time : ℤ
  gps : Option Location
deriving DecidableEq, Repr

/-- `CubeTraces.set_nsl(network, station, location)`: set the codes on
every trace of the record. -/
def CubeRecord.set_nsl (r : CubeRecord) (network station location : String) :
    CubeRecord :=
  { r with network := network, station := station, location := location }

/-- `CubeTraces.rename_channels(old, new)`: every trace whose channel
equals `old` gets channel `new`. -/
def CubeRecord.rename_channels (r : CubeRecord) (old new : ChannelID) :
    CubeRecord :=
  { r with channels := r.channels.map fun c => if c = old then new else c }

/-- `CubeSite` (stations.py, class CubeSite): a `Location` (embedded as
`loc`) with device id, sampling rate, start/end time and the optional
resolved station.  `start_time` and `end_time` are *required* fields of
the Python model (`start_time: datetime`, `end_time: datetime`). -/
structure CubeSite where
  loc : Location
  location : String := ""
  cube_id : CubeId
  sampling_rate : ℚ
  start_time : ℤ
  end_time : ℤ
  station : Option Station := none
deriving DecidableEq, Repr

/-- `CubeSite.station_name`: the resolved station's name, or `""`. -/
def CubeSite.station_name (s : CubeSite) : String :=
  match s.station with
  | some st => st.name
  | none => ""

/-- `CubeSite.from_datacube_trace` (stations.py 57-77): build a
prospective site from the record's GPS fix; `None` (and an error log)
when the fix is NaN or exactly zero — modelled by `r.gps = none`. -/
def CubeSite.from_datacube_trace (r : CubeRecord) : Option CubeSite :=
  r.gps.map fun loc =>
    { loc := loc, location := "", cube_id := r.cube_id,
      sampling_rate := r.sampling_rate, start_time := r.start_time,
      end_time := r.end_time, station := none }

/-- Python truthiness of a `datetime` value: `datetime` defines neither
`__bool__` nor `__len__`, so *every* datetime instance is truthy.  The
guard `if site.end_time: continue` in `fill_endtimes` therefore always
skips a site whose (required, always present) `end_time` is set. -/
def datetime_truthy (_t : ℤ) : Bool := true

/-- The inner loop of `CubeSites.fill_endtimes` (stations.py 203-213)
over one device's list, already sorted by start time: a site whose
`end_time` is truthy is skipped; otherwise it receives the next site's
start time, or the sentinel for the last site. -/
def fill_endtimes_sorted (end_time : ℤ) : List CubeSite → List CubeSite
  | [] => []
  | [site] =>
    if datetime_truthy site.end_time then [site]
    else [{ site with end_time := end_time }]
  | site :: next :: rest =>
    (if datetime_truthy site.end_time then site
     else { site with end_time := next.start_time }) ::
      fill_endtimes_sorted end_time (next :: rest)

/-- Insert `x` into a sorted list, before the first element whose key
does not strictly precede `x`'s: the insertion step of a stable sort.
`lt a b` reads "a's sort key strictly precedes b's". -/
def insert_sorted (lt : α → α → Bool) (x : α) : List α → List α
  | [] => [x]
  | y :: ys => if lt y x then y :: insert_sorted lt x ys else x :: y :: ys

/-- Stable sort modelling Python's `sorted(...)` with a key function:
elements with equal keys keep their original relative order (insertion
sort is stable and Python guarantees `sorted` is, so they agree). -/
def stable_sort (lt : α → α → Bool) : List α → List α
  | [] => []
  | x :: xs => insert_sorted lt x (stable_sort lt xs)

/-- `CubeSites.fill_endtimes(end_time=DATETIME_MAX)` restricted to one
device's site list: `sorted(sites, key=lambda s: s.start_time)`, then
back-fill. -/
def fill_endtimes (end_time : ℤ) (sites : List CubeSite) : List CubeSite :=
  fill_endtimes_sorted end_time
    (stable_sort (fun a b => decide (a.start_time < b.start_time)) sites)

/-- The merge scan of `CubeSites.add_site` (stations.py 130-141): find
the first existing site of the device that `is_close` to the new one
and widen its time range to `min` of starts and `max` of ends; `none`
when no existing site is close. -/
def merge_close_site (sdist : SDist Location) (site : CubeSite) :
    List CubeSite → Option (List CubeSite)
  | [] => none
  | existing_site :: rest =>
    if Location.is_close sdist existing_site.loc site.loc
        Location.DISTANCE_THRESHOLD then
      some ({ existing_site with
                start_time := min site.start_time existing_site.start_time,
                end_time := max site.end_time existing_site.end_time } :: rest)
    else
      (merge_close_site sdist site rest).map (existing_site :: ·)

/-- `SitesStats` (stations.py 28-37): the resolver's counters. -/
structure SitesStats where
  n_sites : ℕ := 0
  n_stations : ℕ := 0
  n_no_site : ℕ := 0
deriving DecidableEq, Repr

/-- `CubeSites` (stations.py, class CubeSites): the resolver state.  The
`DefaultDict[CubeId, list[CubeSite]]` is modelled as an association
list; `_dump_path`/`save()` (file I/O), elevation queries and
post-processors are external and omitted. -/
structure CubeSites where
  network : String := "DC"
  sites : List (CubeId × List CubeSite) := []
  station_blacklist : List String := []
  mapper : Option StationMapper := some {}
  no_site_info : List CubeId := []
  stats : SitesStats := {}

/-- `self.sites[cube_id]` read as a defaultdict: the stored list, or the
empty list when the key is absent. -/
def lookup_sites (m : List (CubeId × List CubeSite)) (cid : CubeId) :
    List CubeSite :=
  (m.lookup cid).getD []

/-- Store a device's list back into the dict (replace the first binding
of the key, or append a new binding). -/
def store_sites (m : List (CubeId × List CubeSite)) (cid : CubeId)
    (l : List CubeSite) : List (CubeId × List CubeSite) :=
  match m with
  | [] => [(cid, l)]
  | (k, v) :: rest =>
    if k = cid then (cid, l) :: rest else (k, v) :: store_sites rest cid l

/-- `CubeSites.add_site(site)` (stations.py 127-152): merge into the
first spatially close existing site of the device (widening its time
range) or, failing that, attempt a station-directory match, record the
statistics, and append the site to the device's list.  `save()` is file
I/O and omitted; a `ValueError` escaping `mapper.get_station` (empty
catalog) propagates. -/
def CubeSites.add_site (sdist : SDist Location) (st : CubeSites)
    (site : CubeSite) : Except String CubeSites :=
  match merge_close_site sdist site (lookup_sites st.sites site.cube_id) with
  | some merged =>
    .ok { st with sites := store_sites st.sites site.cube_id merged }
  | none =>
    match st.mapper with
    | none =>
      .ok { st with
              sites := store_sites st.sites site.cube_id
                (lookup_sites st.sites site.cube_id ++ [site]),
              stats := { st.stats with n_sites := st.stats.n_sites + 1 } }
    | some m =>
      match m.get_station sdist site.loc with
      | .error e => .error e
      | .ok found =>
        let site' := match found with
          | some station => { site with station := some station }
          | none => site
        let stats' := match found with
          | some _ => { st.stats with n_stations := st.stats.n_stations + 1 }
          | none => st.stats
        .ok { st with
                sites := store_sites st.sites site.cube_id
                  (lookup_sites st.sites site.cube_id ++ [site']),
                stats := { stats' with n_sites := stats'.n_sites + 1 } }

/-- Feed a sequence of prospective sites to `add_site` one by one. -/
def add_cubes (sdist : SDist Location) (st : CubeSites)
    (new_sites : List CubeSite) : Except String CubeSites :=
  new_sites.foldlM (fun acc s => CubeSites.add_site sdist acc s) st

/-- `CubeSites.get_site(datacube)` (stations.py 154-166) restricted to
one device's list: among the sites sorted by start time in descending
order (stable, like Python `sorted(..., reverse=True)`), the first with
`start_time <= datacube.start_time <= end_time`; `none` otherwise (the
source then logs an error and bumps the counter — done by the caller
`process_datacube` here). -/
def get_site (sites : List CubeSite) (r : CubeRecord) : Option CubeSite :=
  (stable_sort (fun a b => decide (b.start_time < a.start_time)) sites).find?
    fun site =>
      decide (site.start_time ≤ r.start_time ∧ r.start_time ≤ site.end_time)

/-- `self.no_site_info.add(cube_id)`: Python set insertion. -/
def add_no_site_info (s : List CubeId) (cid : CubeId) : List CubeId :=
  if cid ∈ s then s else s ++ [cid]

/-- One iteration of the `async for` loop of
`CubeSites.process_datacubes` (stations.py 228-251) for one dequeued
record: derive a prospective site from the GPS fix and add-or-merge it
(skipped when the fix is unusable); look up the covering site; on no
site, log, count, and pass the record through unrenamed; on a site,
rewrite the identifier codes, and if a station is resolved either drop
the record (blacklisted station) or rename its channels through the
station's channel map.  The result is the new state and `some` yielded
record, or `none` for a dropped one.  (`post_process_datacube`'s return
value is discarded by the source and post-processors are external;
omitted.) -/
def process_datacube (sdist : SDist Location) (st : CubeSites)
    (r : CubeRecord) : Except String (CubeSites × Option CubeRecord) := do
  let st₁ ← match CubeSite.from_datacube_trace r with
    | some new_site => CubeSites.add_site sdist st new_site
    | none => .ok st
  match get_site (lookup_sites st₁.sites r.cube_id) r with
  | none =>
    .ok ({ st₁ with
             stats := { st₁.stats with n_no_site := st₁.stats.n_no_site + 1 },
             no_site_info := add_no_site_info st₁.no_site_info r.cube_id },
         some r)
  | some site =>
    let r₁ := r.set_nsl st₁.network site.station_name site.location
    match site.station with
    | none => .ok (st₁, some r₁)
    | some station =>
      if station.name ∈ st₁.station_blacklist then
        .ok (st₁, none)
      else
        match st₁.mapper with
        | none => .error "Station has no parent."
        | some m =>
          match m.get_channel_map station.seismic_sensor station.name with
          | none => .error "KeyError"
          | some cmap =>
            .ok (st₁,
              some (cmap.foldl (fun c p => c.rename_channels p.1 p.2) r₁))

/-- Concrete site constructor for the back-fill and merge theorems: a
site of device "C001" at latitude `lat` (longitude 6) recording from
`t0` to `t1`. -/
def test_site (lat : ℚ) (t0 t1 : ℤ) : CubeSite :=
  { loc := { lat := lat, lon := 6, elevation := 0, depth := 0 },
    location := "", cube_id := "C001", sampling_rate := 100,
    start_time := t0, end_time := t1, station := none }

/-- Geodesic distance restricted to one meridian: for two points of
equal longitude the surface distance is the meridian arc, about
111320 m per degree of latitude.  Used as a concrete instance of the
abstract distance oracle; the source's `distance_accurate50m_numpy`
agrees with this far better than the 10 percent margins used below
(0.0002 degrees is about 22.26 m, 0.0004 degrees about 44.53 m). -/
def meridian_dist : SDist Location :=
  fun a b => |a.lat - b.lat| * 111320

/-- A concrete record of device "C001" with an unusable GPS fix, used
by witnesses. -/
def sampleRecord : CubeRecord :=
  { path := "data/C001.001", cube_id := "C001", network := "", station := "",
    location := "", channels := ["p0", "p1", "p2"], sampling_rate := 100,
    start_time := 100, end_time := 150, gps := none }

/-! ## Ingestion loader (`dcube_conv/loader.py`) -/

/-- A candidate file as `_scan_datacube_files` sees it: path, filename,
extension-stripped stem (`file.stem.lstrip(".")`), byte size, the stat
modification time, and the result of the external `datacube.detect`
header probe on its first 512 bytes. -/
structure FileEntry where
  path : String
  name : String
  stem : String
  size : ℕ
  mtime : ℤ
  is_datacube : Bool
deriving DecidableEq, Repr

/-- The configuration fields of `DataCubeLoader` (loader.py 110-130)
that drive discovery: allow-listed device ids, minimum file size
(default 50 MB), bounded-queue size (default 16), and the optional
modification-time window. -/
structure LoaderConfig where
  cube_ids : List String := []
  min_file_size : ℕ := 50000000
  queue_size : ℕ := 16
  start_time : Option ℤ := none
  end_time : Option ℤ := none

/-- `DataCubeLoader._scan_datacube_files` (loader.py 132-158) as a pure
function of the recursive directory listing: the filters in source
order — allow-list on the stem, completion-log exclusion
(`file in self._done_paths`), duplicate-filename rejection, minimum
size, modification-time window, and the content probe.  `seen` is the
running `self._filenames` set, extended at each yield. -/
def scan_datacube_files (cfg : LoaderConfig) (done_paths : List String) :
    List FileEntry → List String → List FileEntry
  | [], _ => []
  | f :: files, seen =>
    if cfg.cube_ids ≠ [] ∧ f.stem ∉ cfg.cube_ids then
      scan_datacube_files cfg done_paths files seen
    else if f.path ∈ done_paths then
      scan_datacube_files cfg done_paths files seen
    else if f.name ∈ seen then
      scan_datacube_files cfg done_paths files seen
    else if f.size < cfg.min_file_size then
      scan_datacube_files cfg done_paths files seen
    else if ∃ t ∈ cfg.start_time, f.mtime < t then
      scan_datacube_files cfg done_paths files seen
    else if ∃ t ∈ cfg.end_time, t < f.mtime then
      scan_datacube_files cfg done_paths files seen
    else if f.is_datacube = false then
      scan_datacube_files cfg done_paths files seen
    else
      f :: scan_datacube_files cfg done_paths files (f.name :: seen)

/-- `int(round(self.queue_size / 2) + 1)` (loader.py 192), the decode
semaphore capacity: Python 3 `round` applies round-half-to-even to the
float `queue_size / 2` (exact for even sizes; for odd sizes the `.5`
rounds to the even neighbour).  For the default `queue_size = 16` this
is 9. -/
def decode_semaphore_cap (queue_size : ℕ) : ℕ :=
  (if queue_size % 2 = 0 then queue_size / 2
   else if queue_size % 4 = 1 then queue_size / 2
   else queue_size / 2 + 1) + 1

/-- A snapshot of the producer/consumer execution of
`DataCubeLoader._fetch_datacubes` / `iter_datacubes` (loader.py
189-230): candidate files not yet picked up by a `load()` task, decodes
in flight (bounded by the semaphore), and decoded records sitting
undelivered in `self._queue`.  The loader's queue is constructed as
`asyncio.Queue()` — with *no* `maxsize` argument (loader.py 128-130) —
so `queue.put(cube)` never suspends, whatever the queue length. -/
structure LoaderState where
  files_left : ℕ
  inflight : ℕ
  queued : ℕ
deriving DecidableEq, Repr

/-- Interleaving semantics of the loader: a decode may start while the
semaphore has a free permit; a finished decode enqueues its record
unconditionally (the queue is unbounded, so this transition is enabled
at every queue length); the consumer may dequeue a record. -/
inductive LoaderStep (cap : ℕ) : LoaderState → LoaderState → Prop where
  | start_decode (f i q : ℕ) (h : i < cap) :
      LoaderStep cap ⟨f + 1, i, q⟩ ⟨f, i + 1, q⟩
  | finish_decode (f i q : ℕ) :
      LoaderStep cap ⟨f, i + 1, q⟩ ⟨f, i, q + 1⟩
  | consume (f i q : ℕ) :
      LoaderStep cap ⟨f, i, q + 1⟩ ⟨f, i, q⟩

/-- Reachability in the loader's transition system. -/
def LoaderReachable (cap : ℕ) : LoaderState → LoaderState → Prop :=
  Relation.ReflTransGen (LoaderStep cap)

/-- C7 — The 3-D distance of the source is zero whenever the two
locations have the same effective elevation, *regardless of their
latitudes and longitudes*, because `Location.distance_to` passes
`self.lat, self.lon` to both `geodetic_to_ecef` calls.  This holds for
every ECEF conversion function, so the source's 3-D distance is not
the distance between the two locations' own ECEF coordinates. -/
theorem distance_sq_same_elevation (ecef : Ecef) (a b : Location)
    (h : a.effective_elevation = b.effective_elevation) :
    Location.distance_sq ecef a b = 0 := by
  simp [Location.distance_sq, h]

/-- Witness for C7: two locations one degree apart in both latitude and
longitude, both at 100 m elevation, have 3-D distance zero (here with
the identity-shaped ECEF stand-in; the theorem holds for every ECEF
function). -/
theorem distance_sq_same_elevation_witness :
    Location.effective_elevation ⟨50, 6, 100, 0⟩ =
        Location.effective_elevation ⟨51, 7, 100, 0⟩ ∧
    Location.distance_sq (fun la lo e => (la, lo, e)) ⟨50, 6, 100, 0⟩ ⟨51, 7, 100, 0⟩ = 0 :=
  ⟨by norm_num [Location.effective_elevation],
   distance_sq_same_elevation (fun la lo e => (la, lo, e)) ⟨50, 6, 100, 0⟩ ⟨51, 7, 100, 0⟩
     (by norm_num [Location.effective_elevation])⟩

/-- C10 — On an empty station catalog (`prepare()` not run, or an empty
reference file), `get_station` raises: `min()` of the empty distance
list is a `ValueError`, not a `None` return. -/
theorem get_station_empty_catalog_raises (m : StationMapper)
    (sdist : SDist Location) (site : Location) (h : m.features = []) :
    m.get_station sdist site = .error "min() arg is an empty sequence" := by
  simp [StationMapper.get_station, h]

/-- Witness for C10: the default-constructed mapper has an empty catalog
and every query errors. -/
theorem get_station_empty_catalog_raises_witness :
    ({} : StationMapper).features = [] ∧
    ({} : StationMapper).get_station (fun _ _ => 0) { lat := 50, lon := 6 } =
      .error "min() arg is an empty sequence" :=
  ⟨rfl, get_station_empty_catalog_raises {} (fun _ _ => 0) { lat := 50, lon := 6 } rfl⟩

/-- C5 — Channel renaming: sensor "4.5hz" maps raw "p0" to "EPZ"; under
a station orientation overwrite the horizontal letters are renumbered
("EPN" to "EP1", "EPE" to "EP2", likewise for the "mark" and "bb"
sensors), while the vertical "Z" channels are unchanged; without an
overwrite the compass-letter map is returned as is. -/
theorem get_channel_map_orientation_overwrite
    (ows : List (String × StationOrientationOverwrite)) (station : String)
    (hmem : (ows.lookup station).isSome = true) :
    ({ station_orientation_overwrites := ows } : StationMapper).get_channel_map
        "4.5hz" station = some [("p0", "EPZ"), ("p1", "EP1"), ("p2", "EP2")] ∧
    ({ station_orientation_overwrites := ows } : StationMapper).get_channel_map
        "mark" station = some [("p0", "EHZ"), ("p1", "EH1"), ("p2", "EH2")] ∧
    ({ station_orientation_overwrites := ows } : StationMapper).get_channel_map
        "bb" station = some [("p0", "HHZ"), ("p1", "HH1"), ("p2", "HH2")] ∧
    ({} : StationMapper).get_channel_map "4.5hz" station =
      some [("p0", "EPZ"), ("p1", "EPN"), ("p2", "EPE")] := by
  refine ⟨?_, ?_, ?_, ?_⟩ <;>
    simp [StationMapper.get_channel_map, default_channel_map, hmem] <;> decide

/-- Witness for C5 with a concrete overwrite table: station "ST01"
carries an orientation overwrite. -/
theorem get_channel_map_orientation_overwrite_witness :
    (([("ST01", sampleOverwrite)].lookup "ST01").isSome = true) ∧
    ({ station_orientation_overwrites := [("ST01", sampleOverwrite)] } :
      StationMapper).get_channel_map "4.5hz" "ST01" =
      some [("p0", "EPZ"), ("p1", "EP1"), ("p2", "EP2")] :=
  ⟨by decide,
   (get_channel_map_orientation_overwrite
      [("ST01", sampleOverwrite)] "ST01" (by decide)).1⟩

/-- C4 — `get_station` on a non-empty catalog: the minimum `dmin` of
the surface distances from the query to every catalog entry exists and
bounds them all; the query returns `none` exactly when `dmin` exceeds
the threshold, and otherwise returns the first catalog entry (in
catalog order) whose distance equals `dmin` — the tie-break of
`distances.index(min_distance)`. -/
theorem get_station_nearest_first (m : StationMapper) (sdist : SDist Location)
    (site : Location) (hne : m.features ≠ []) :
    ∃ dmin,
      (m.features.map fun f =>
        Location.surface_distance_to sdist f.loc site).min? = some dmin ∧
      (∀ f ∈ m.features, dmin ≤ Location.surface_distance_to sdist f.loc site) ∧
      (m.distance_threshold < dmin → m.get_station sdist site = .ok none) ∧
      (dmin ≤ m.distance_threshold →
        ∃ i, ∃ hi : i < m.features.length,
          m.get_station sdist site = .ok (some (m.features.get ⟨i, hi⟩)) ∧
          Location.surface_distance_to sdist (m.features.get ⟨i, hi⟩).loc site = dmin ∧
          ∀ j, ∀ hj : j < m.features.length, j < i →
            Location.surface_distance_to sdist (m.features.get ⟨j, hj⟩).loc site ≠ dmin) := by
  classical
  set ds := m.features.map fun f => Location.surface_distance_to sdist f.loc site with hds
  have hdsne : ds ≠ [] := by
    simpa [hds] using hne
  obtain ⟨dmin, hmin⟩ : ∃ d, ds.min? = some d := by
    cases h : ds.min? with
    | none => exact absurd (List.min?_eq_none_iff.mp h) hdsne
    | some d => exact ⟨d, rfl⟩
  have hle : ∀ b ∈ ds, dmin ≤ b := fun b hb =>
    (List.le_min?_iff (fun _ _ _ => le_min_iff) hmin).mp le_rfl b hb
  refine ⟨dmin, hmin, ?_, ?_, ?_⟩
  · intro f hf
    exact hle _ (List.mem_map_of_mem _ hf)
  · intro hgt
    simp only [StationMapper.get_station, ← hds, hmin, gt_iff_lt, if_pos hgt]
  · intro hle'
    have hmem : dmin ∈ ds := List.min?_mem (fun _ _ => min_choice _ _) hmin
    have hex : ∃ x ∈ ds, (fun d => decide (d = dmin)) x = true := ⟨dmin, hmem, by simp⟩
    have hidx : ds.findIdx (fun d => decide (d = dmin)) < ds.length :=
      List.findIdx_lt_length_of_exists hex
    have hlen : ds.length = m.features.length := by
      simp [hds]
    refine ⟨ds.findIdx (fun d => decide (d = dmin)), hlen ▸ hidx, ?_, ?_, ?_⟩
    · simp only [StationMapper.get_station, ← hds, hmin, gt_iff_lt,
        if_neg (not_lt.mpr hle')]
      rw [List.get?_eq_get (hlen ▸ hidx)]
    · have hp := @List.findIdx_getElem _ (fun d => decide (d = dmin)) ds hidx
      simp only [decide_eq_true_eq] at hp
      calc Location.surface_distance_to sdist
            ((m.features.get ⟨ds.findIdx (fun d => decide (d = dmin)), hlen ▸ hidx⟩)).loc site
          = ds.get ⟨ds.findIdx (fun d => decide (d = dmin)), hidx⟩ := by
            simp [hds, List.get_map]
        _ = dmin := by simpa using hp
    · intro j hj hjlt
      have hfalse := @List.not_of_lt_findIdx _ (fun d => decide (d = dmin))
        ds j hjlt
      intro heq
      have : ds.get ⟨j, hlen ▸ hj⟩ = dmin := by
        simpa [hds, List.get_map] using heq
      simp only [List.get_eq_getElem] at this
      rw [this] at hfalse
      simp at hfalse

/-- Witness for C4: the two-station sample catalog, a constant 10 m
distance oracle (an exact tie) and a concrete query. -/
theorem get_station_nearest_first_witness :
    sampleMapper.features ≠ [] ∧
    (∃ dmin,
      (sampleMapper.features.map fun f =>
        Location.surface_distance_to (fun _ _ => 10) f.loc
          { lat := 50, lon := 6 }).min? = some dmin ∧
      (∀ f ∈ sampleMapper.features,
        dmin ≤ Location.surface_distance_to (fun _ _ => 10) f.loc
          { lat := 50, lon := 6 }) ∧
      (sampleMapper.distance_threshold < dmin →
        sampleMapper.get_station (fun _ _ => 10) { lat := 50, lon := 6 } = .ok none) ∧
      (dmin ≤ sampleMapper.distance_threshold →
        ∃ i, ∃ hi : i < sampleMapper.features.length,
          sampleMapper.get_station (fun _ _ => 10) { lat := 50, lon := 6 } =
            .ok (some (sampleMapper.features.get ⟨i, hi⟩)) ∧
          Location.surface_distance_to (fun _ _ => 10)
            (sampleMapper.features.get ⟨i, hi⟩).loc { lat := 50, lon := 6 } = dmin ∧
          ∀ j, ∀ hj : j < sampleMapper.features.length, j < i →
            Location.surface_distance_to (fun _ _ => 10)
              (sampleMapper.features.get ⟨j, hj⟩).loc { lat := 50, lon := 6 } ≠ dmin)) :=
  ⟨by simp [sampleMapper],
   get_station_nearest_first sampleMapper (fun _ _ => 10) { lat := 50, lon := 6 }
     (by simp [sampleMapper])⟩

/-- The back-fill loop never modifies a site whose `end_time` is set:
the guard `if site.end_time: continue` always fires, because a Python
datetime is always truthy. -/
theorem fill_endtimes_sorted_id (end_time : ℤ) (l : List CubeSite) :
    fill_endtimes_sorted end_time l = l := by
  induction l with
  | nil => rfl
  | cons x xs ih =>
    cases xs with
    | nil => simp [fill_endtimes_sorted, datetime_truthy]
    | cons y ys =>
      simp only [fill_endtimes_sorted, datetime_truthy, if_pos]
      exact congrArg _ ih

/-- C1 — The end-time back-fill is a no-op on every site list the
pipeline builds: `fill_endtimes` only sorts, because every `CubeSite`
carries a required, already-set `end_time` (assigned by
`from_datacube_trace` and only widened by merges) and the guard
`if site.end_time:` always fires.  In particular, for three sites of
one device with start times 100 < 200 < 300 and trace end times
150/250/350, the end times after back-fill are still [150, 250, 350]
and not [200, 300, sentinel] as the claim requires. -/
theorem fill_endtimes_is_noop :
    (∀ (end_time : ℤ) (sites : List CubeSite),
      fill_endtimes end_time sites =
        stable_sort (fun a b => decide (a.start_time < b.start_time)) sites) ∧
    (fill_endtimes DATETIME_MAX
        [test_site 50 100 150, test_site 50 200 250, test_site 50 300 350]).map
      CubeSite.end_time = [150, 250, 350] ∧
    ([150, 250, 350] : List ℤ) ≠ [200, 300, DATETIME_MAX] := by
  refine ⟨fun end_time sites => fill_endtimes_sorted_id _ _, ?_, by decide⟩
  rw [fill_endtimes, fill_endtimes_sorted_id]
  decide

/-- C6 — The proximity test is the strict comparison
`surface_distance < threshold`, and `add_site` merges accordingly: for
two sites of one device at exactly the default 25 m threshold distance
the proximity test is false and the second site is appended, not
merged; at any distance strictly below the threshold the test is true
and the second site is merged into the first, widening the time range
to min of starts and max of ends. -/
theorem is_close_strict_at_threshold (sdist : SDist Location)
    (s1 s2 : CubeSite) (hcid : s1.cube_id = s2.cube_id) :
    (sdist s1.loc s2.loc = Location.DISTANCE_THRESHOLD →
      Location.is_close sdist s1.loc s2.loc Location.DISTANCE_THRESHOLD = false ∧
      ∃ st, CubeSites.add_site sdist
          { sites := [(s1.cube_id, [s1])], mapper := none } s2 = .ok st ∧
        lookup_sites st.sites s2.cube_id = [s1, s2]) ∧
    (sdist s1.loc s2.loc < Location.DISTANCE_THRESHOLD →
      Location.is_close sdist s1.loc s2.loc Location.DISTANCE_THRESHOLD = true ∧
      ∃ st, CubeSites.add_site sdist
          { sites := [(s1.cube_id, [s1])], mapper := none } s2 = .ok st ∧
        lookup_sites st.sites s2.cube_id =
          [{ s1 with start_time := min s2.start_time s1.start_time,
                     end_time := max s2.end_time s1.end_time }]) := by
  have hlu : lookup_sites [(s1.cube_id, [s1])] s2.cube_id = [s1] := by
    simp [lookup_sites, List.lookup, hcid]
  constructor
  · intro h
    have hnc : Location.is_close sdist s1.loc s2.loc
        Location.DISTANCE_THRESHOLD = false := by
      simp [Location.is_close, Location.surface_distance_to, h]
    have hmerge : merge_close_site sdist s2 [s1] = none := by
      simp [merge_close_site, hnc]
    refine ⟨hnc, ⟨{ sites := store_sites [(s1.cube_id, [s1])] s2.cube_id [s1, s2],
                    mapper := none,
                    stats := { n_sites := 1 } }, ?_, ?_⟩⟩
    · simp [CubeSites.add_site, hlu, hmerge]
    · simp [lookup_sites, store_sites, hcid, List.lookup]
  · intro h
    have hc : Location.is_close sdist s1.loc s2.loc
        Location.DISTANCE_THRESHOLD = true := by
      simp [Location.is_close, Location.surface_distance_to, h]
    have hmerge : merge_close_site sdist s2 [s1] =
        some [{ s1 with start_time := min s2.start_time s1.start_time,
                        end_time := max s2.end_time s1.end_time }] := by
      simp [merge_close_site, hc]
    refine ⟨hc, ⟨{ sites := store_sites [(s1.cube_id, [s1])] s2.cube_id
                    [{ s1 with start_time := min s2.start_time s1.start_time,
                               end_time := max s2.end_time s1.end_time }],
                   mapper := none }, ?_, ?_⟩⟩
    · simp [CubeSites.add_site, hlu, hmerge]
    · simp [lookup_sites, store_sites, hcid, List.lookup]

/-- Witness for C6: two sites of device "C001", with a 25 m distance
oracle (appended, not merged) and a 24 m oracle (merged). -/
theorem is_close_strict_at_threshold_witness :
    (Location.is_close (fun _ _ => 25) (test_site 50 100 150).loc
        (test_site 50 200 250).loc Location.DISTANCE_THRESHOLD = false ∧
      ∃ st, CubeSites.add_site (fun _ _ => 25)
          { sites := [((test_site 50 100 150).cube_id, [test_site 50 100 150])],
            mapper := none } (test_site 50 200 250) = .ok st ∧
        lookup_sites st.sites (test_site 50 200 250).cube_id =
          [test_site 50 100 150, test_site 50 200 250]) ∧
    (Location.is_close (fun _ _ => 24) (test_site 50 100 150).loc
        (test_site 50 200 250).loc Location.DISTANCE_THRESHOLD = true ∧
      ∃ st, CubeSites.add_site (fun _ _ => 24)
          { sites := [((test_site 50 100 150).cube_id, [test_site 50 100 150])],
            mapper := none } (test_site 50 200 250) = .ok st ∧
        lookup_sites st.sites (test_site 50 200 250).cube_id =
          [{ test_site 50 100 150 with
               start_time := min (test_site 50 200 250).start_time
                 (test_site 50 100 150).start_time,
               end_time := max (test_site 50 200 250).end_time
                 (test_site 50 100 150).end_time }]) :=
  ⟨(is_close_strict_at_threshold (fun _ _ => 25)
      (test_site 50 100 150) (test_site 50 200 250) rfl).1 rfl,
   (is_close_strict_at_threshold (fun _ _ => 24)
      (test_site 50 100 150) (test_site 50 200 250) rfl).2
     (by norm_num [Location.DISTANCE_THRESHOLD])⟩

/-- C2 counterexample — add-or-merge is *not* order independent:
three sites of device "C001" on one meridian, 22.26 m apart pairwise
in sequence (A-B and B-C below the 25 m threshold) but with A-C at
44.53 m (above it).  Feeding them as [A, B, C] leaves two sites (B
merges into A, C is far from A); feeding them as [B, A, C] leaves one
site (A merges into B, then C is close to B and merges too). -/
theorem add_site_order_dependent :
    (add_cubes meridian_dist { sites := [], mapper := none }
        [test_site 50 100 150, test_site (50 + 2/10000) 200 250,
         test_site (50 + 4/10000) 300 350]).map
      (fun st => (lookup_sites st.sites "C001").length) = .ok 2 ∧
    (add_cubes meridian_dist { sites := [], mapper := none }
        [test_site (50 + 2/10000) 200 250, test_site 50 100 150,
         test_site (50 + 4/10000) 300 350]).map
      (fun st => (lookup_sites st.sites "C001").length) = .ok 1 := by
  have hAB : Location.is_close meridian_dist
      { lat := 50, lon := 6, elevation := 0, depth := 0 }
      { lat := 50 + 2/10000, lon := 6, elevation := 0, depth := 0 }
      Location.DISTANCE_THRESHOLD = true := by
    simp only [Location.is_close, Location.surface_distance_to, meridian_dist,
      Location.DISTANCE_THRESHOLD, decide_eq_true_eq]
    norm_num [abs_sub_comm, abs_of_nonneg]
  have hAC : Location.is_close meridian_dist
      { lat := 50, lon := 6, elevation := 0, depth := 0 }
      { lat := 50 + 4/10000, lon := 6, elevation := 0, depth := 0 }
      Location.DISTANCE_THRESHOLD = false := by
    simp only [Location.is_close, Location.surface_distance_to, meridian_dist,
      Location.DISTANCE_THRESHOLD, decide_eq_false_iff_not, not_lt]
    norm_num [abs_sub_comm, abs_of_nonneg]
  have hBA : Location.is_close meridian_dist
      { lat := 50 + 2/10000, lon := 6, elevation := 0, depth := 0 }
      { lat := 50, lon := 6, elevation := 0, depth := 0 }
      Location.DISTANCE_THRESHOLD = true := by
    simp only [Location.is_close, Location.surface_distance_to, meridian_dist,
      Location.DISTANCE_THRESHOLD, decide_eq_true_eq]
    norm_num [abs_of_nonneg]
  have hBC : Location.is_close meridian_dist
      { lat := 50 + 2/10000, lon := 6, elevation := 0, depth := 0 }
      { lat := 50 + 4/10000, lon := 6, elevation := 0, depth := 0 }
      Location.DISTANCE_THRESHOLD = true := by
    simp only [Location.is_close, Location.surface_distance_to, meridian_dist,
      Location.DISTANCE_THRESHOLD, decide_eq_true_eq]
    norm_num [abs_sub_comm, abs_of_nonneg]
  constructor
  · simp [add_cubes, List.foldlM, CubeSites.add_site, merge_close_site, test_site,
      lookup_sites, store_sites, List.lookup, hAB, hAC, Except.map,
      Except.instMonad, Except.bind, Except.pure]
  · simp [add_cubes, List.foldlM, CubeSites.add_site, merge_close_site, test_site,
      lookup_sites, store_sites, List.lookup, hBA, hBC, Except.map,
      Except.instMonad, Except.bind, Except.pure]

/-- `List.min?` characterization over a linear order. -/
theorem min?_eq_some_iff_lin {α} [LinearOrder α] {xs : List α} {a : α} :
    xs.min? = some a ↔ a ∈ xs ∧ ∀ b ∈ xs, a ≤ b :=
  @List.min?_eq_some_iff α _ _ _ ⟨fun h₁ h₂ => le_antisymm h₁ h₂⟩
    (fun _ => le_refl _) (fun _ _ => min_choice _ _) (fun _ _ _ => le_min_iff) _

/-- `List.max?` characterization over a linear order. -/
theorem max?_eq_some_iff_lin {α} [LinearOrder α] {xs : List α} {a : α} :
    xs.max? = some a ↔ a ∈ xs ∧ ∀ b ∈ xs, b ≤ a :=
  @List.max?_eq_some_iff α _ _ _ ⟨fun h₁ h₂ => le_antisymm h₁ h₂⟩
    (fun _ => le_refl _) (fun _ _ => max_choice _ _) (fun _ _ _ => max_le_iff) _

/-- `List.min?` only depends on the multiset of elements. -/
theorem min?_eq_of_perm {α} [LinearOrder α] {l l' : List α} (h : l.Perm l') :
    l.min? = l'.min? := by
  cases hl : l.min? with
  | none =>
    have hnil : l = [] := List.min?_eq_none_iff.mp hl
    subst hnil
    have : l' = [] := h.symm.eq_nil
    simp [this]
  | some a =>
    obtain ⟨hmem, hbound⟩ := min?_eq_some_iff_lin.mp hl
    exact (min?_eq_some_iff_lin.mpr
      ⟨h.subset hmem, fun b hb => hbound b (h.symm.subset hb)⟩).symm

/-- `List.max?` only depends on the multiset of elements. -/
theorem max?_eq_of_perm {α} [LinearOrder α] {l l' : List α} (h : l.Perm l') :
    l.max? = l'.max? := by
  cases hl : l.max? with
  | none =>
    have hnil : l = [] := List.max?_eq_none_iff.mp hl
    subst hnil
    have : l' = [] := h.symm.eq_nil
    simp [this]
  | some a =>
    obtain ⟨hmem, hbound⟩ := max?_eq_some_iff_lin.mp hl
    exact (max?_eq_some_iff_lin.mpr
      ⟨h.subset hmem, fun b hb => hbound b (h.symm.subset hb)⟩).symm

/-- Folding `min` with flipped argument order agrees with folding
`min`. -/
theorem foldl_min_flip {α} [LinearOrder α] (l : List α) (b : α) :
    l.foldl (fun acc v => min v acc) b = l.foldl min b := by
  induction l generalizing b with
  | nil => rfl
  | cons x xs ih => simp [List.foldl_cons, ih, min_comm]

/-- Folding `max` with flipped argument order agrees with folding
`max`. -/
theorem foldl_max_flip {α} [LinearOrder α] (l : List α) (b : α) :
    l.foldl (fun acc v => max v acc) b = l.foldl max b := by
  induction l generalizing b with
  | nil => rfl
  | cons x xs ih => simp [List.foldl_cons, ih, max_comm]

/-- The engine invariant behind the amended C2: once a device has the
single site `m`, feeding it further sites that are all close to `m`'s
location keeps a single site at `m`'s location, accumulating the
minimum start and maximum end time. -/
theorem add_cubes_all_close_aux (sdist : SDist Location) (cid : CubeId) :
    ∀ (rest : List CubeSite) (m : CubeSite) (st : CubeSites),
      st.sites = [(cid, [m])] → st.mapper = none →
      (∀ y ∈ rest,
        Location.is_close sdist m.loc y.loc Location.DISTANCE_THRESHOLD = true) →
      (∀ y ∈ rest, y.cube_id = cid) →
      ∃ st', add_cubes sdist st rest = .ok st' ∧
        st'.sites = [(cid, [{ m with
          start_time := rest.foldl (fun acc y => min y.start_time acc) m.start_time,
          end_time := rest.foldl (fun acc y => max y.end_time acc) m.end_time }])]
  | [], m, st, hsites, _, _, _ => by
    refine ⟨st, rfl, ?_⟩
    simpa using hsites
  | y :: ys, m, st, hsites, hmap, hclose, hcid => by
    have hcy := hclose y (List.mem_cons_self _ _)
    have hcidy := hcid y (List.mem_cons_self _ _)
    have hlu : lookup_sites st.sites y.cube_id = [m] := by
      simp [lookup_sites, hsites, List.lookup, hcidy]
    have hmerge : merge_close_site sdist y [m] =
        some [{ m with start_time := min y.start_time m.start_time,
                       end_time := max y.end_time m.end_time }] := by
      simp [merge_close_site, hcy]
    have hstore : store_sites st.sites y.cube_id
        [{ m with start_time := min y.start_time m.start_time,
                  end_time := max y.end_time m.end_time }] =
        [(cid, [{ m with start_time := min y.start_time m.start_time,
                         end_time := max y.end_time m.end_time }])] := by
      simp [hsites, store_sites, hcidy]
    have hadd : CubeSites.add_site sdist st y =
        .ok { st with sites :=
          [(cid, [{ m with start_time := min y.start_time m.start_time,
                           end_time := max y.end_time m.end_time }])] } := by
      simp only [CubeSites.add_site, hlu, hmerge, hstore]
    obtain ⟨st', hrun, hsites'⟩ := add_cubes_all_close_aux sdist cid ys
      { m with start_time := min y.start_time m.start_time,
               end_time := max y.end_time m.end_time }
      { st with sites :=
          [(cid, [{ m with start_time := min y.start_time m.start_time,
                           end_time := max y.end_time m.end_time }])] }
      rfl (by simpa using hmap)
      (fun z hz => hclose z (List.mem_cons_of_mem _ hz))
      (fun z hz => hcid z (List.mem_cons_of_mem _ hz))
    refine ⟨st', ?_, ?_⟩
    · show add_cubes sdist st (y :: ys) = .ok st'
      rw [add_cubes, List.foldlM_cons, hadd]
      exact hrun
    · simpa using hsites'

/-- One run of add-or-merge over a pairwise-close single-device input:
the device ends with exactly one site whose time range is the minimum
start and maximum end of the inputs. -/
theorem add_cubes_pairwise_close (sdist : SDist Location) (cid : CubeId)
    (l : List CubeSite) (hne : l ≠ [])
    (hclose : ∀ a ∈ l, ∀ b ∈ l,
      Location.is_close sdist a.loc b.loc Location.DISTANCE_THRESHOLD = true)
    (hcid : ∀ s ∈ l, s.cube_id = cid) :
    ∃ st s, add_cubes sdist { sites := [], mapper := none } l = .ok st ∧
      lookup_sites st.sites cid = [s] ∧
      some s.start_time = (l.map CubeSite.start_time).min? ∧
      some s.end_time = (l.map CubeSite.end_time).max? := by
  match l, hne with
  | x :: rest, _ =>
    have hcidx := hcid x (List.mem_cons_self _ _)
    have hadd : CubeSites.add_site sdist
        ({ sites := [], mapper := none } : CubeSites) x =
        .ok { network := "DC", sites := [(cid, [x])], station_blacklist := [],
              mapper := none, no_site_info := [],
              stats := { n_sites := 1, n_stations := 0, n_no_site := 0 } } := by
      simp [CubeSites.add_site, lookup_sites, merge_close_site, store_sites, hcidx]
    obtain ⟨st', hrun, hsites'⟩ := add_cubes_all_close_aux sdist cid rest x
      { network := "DC", sites := [(cid, [x])], station_blacklist := [],
        mapper := none, no_site_info := [],
        stats := { n_sites := 1, n_stations := 0, n_no_site := 0 } }
      rfl rfl
      (fun z hz => hclose x (List.mem_cons_self _ _) z (List.mem_cons_of_mem _ hz))
      (fun z hz => hcid z (List.mem_cons_of_mem _ hz))
    refine ⟨st',
      { x with
          start_time := rest.foldl (fun acc y => min y.start_time acc) x.start_time,
          end_time := rest.foldl (fun acc y => max y.end_time acc) x.end_time },
      ?_, ?_, ?_, ?_⟩
    · rw [add_cubes, List.foldlM_cons, hadd]
      exact hrun
    · rw [hsites']
      simp [lookup_sites, List.lookup]
    · show some (rest.foldl (fun acc y => min y.start_time acc) x.start_time) = _
      rw [List.map_cons, List.min?_cons']
      congr 1
      calc rest.foldl (fun acc y => min y.start_time acc) x.start_time
          = (rest.map CubeSite.start_time).foldl (fun acc v => min v acc)
              x.start_time := by
            rw [List.foldl_map]
        _ = (rest.map CubeSite.start_time).foldl min x.start_time :=
            foldl_min_flip _ _
    · show some (rest.foldl (fun acc y => max y.end_time acc) x.end_time) = _
      rw [List.map_cons, List.max?_cons']
      congr 1
      calc rest.foldl (fun acc y => max y.end_time acc) x.end_time
          = (rest.map CubeSite.end_time).foldl (fun acc v => max v acc)
              x.end_time := by
            rw [List.foldl_map]
        _ = (rest.map CubeSite.end_time).foldl max x.end_time :=
            foldl_max_flip _ _

/-- C2 (amended) — Order independence of add-or-merge for a device
whose prospective sites are *pairwise* within the proximity threshold:
any two orderings of such a set converge to the same final result for
the device — exactly one site, with the same merged time range (minimum
start, maximum end).  (In general, for inputs whose closeness relation
is not transitive, different orders yield different site counts; see
the counterexample.) -/
theorem add_cubes_pairwise_close_order_independent (sdist : SDist Location)
    (cid : CubeId) (l₁ l₂ : List CubeSite) (hperm : l₁.Perm l₂) (hne : l₁ ≠ [])
    (hclose : ∀ a ∈ l₁, ∀ b ∈ l₁,
      Location.is_close sdist a.loc b.loc Location.DISTANCE_THRESHOLD = true)
    (hcid : ∀ s ∈ l₁, s.cube_id = cid) :
    ∃ st₁ st₂ s₁ s₂,
      add_cubes sdist { sites := [], mapper := none } l₁ = .ok st₁ ∧
      add_cubes sdist { sites := [], mapper := none } l₂ = .ok st₂ ∧
      lookup_sites st₁.sites cid = [s₁] ∧
      lookup_sites st₂.sites cid = [s₂] ∧
      s₁.start_time = s₂.start_time ∧ s₁.end_time = s₂.end_time := by
  obtain ⟨st₁, s₁, hrun₁, hlu₁, hmin₁, hmax₁⟩ :=
    add_cubes_pairwise_close sdist cid l₁ hne hclose hcid
  obtain ⟨st₂, s₂, hrun₂, hlu₂, hmin₂, hmax₂⟩ :=
    add_cubes_pairwise_close sdist cid l₂
      (fun h => hne ((h ▸ hperm).eq_nil))
      (fun a ha b hb => hclose a (hperm.symm.subset ha) b (hperm.symm.subset hb))
      (fun s hs => hcid s (hperm.symm.subset hs))
  refine ⟨st₁, st₂, s₁, s₂, hrun₁, hrun₂, hlu₁, hlu₂, ?_, ?_⟩
  · have := hmin₁.trans ((min?_eq_of_perm (hperm.map CubeSite.start_time)).trans
      hmin₂.symm)
    exact Option.some.inj this
  · have := hmax₁.trans ((max?_eq_of_perm (hperm.map CubeSite.end_time)).trans
      hmax₂.symm)
    exact Option.some.inj this

/-- Witness for the amended C2: two sites of device "C001" under a
zero-distance oracle (trivially pairwise close), fed in both orders. -/
theorem add_cubes_pairwise_close_order_independent_witness :
    ∃ st₁ st₂ s₁ s₂,
      add_cubes (fun _ _ => 0) { sites := [], mapper := none }
        [test_site 50 100 150, test_site 50 200 250] = .ok st₁ ∧
      add_cubes (fun _ _ => 0) { sites := [], mapper := none }
        [test_site 50 200 250, test_site 50 100 150] = .ok st₂ ∧
      lookup_sites st₁.sites "C001" = [s₁] ∧
      lookup_sites st₂.sites "C001" = [s₂] ∧
      s₁.start_time = s₂.start_time ∧ s₁.end_time = s₂.end_time :=
  add_cubes_pairwise_close_order_independent (fun _ _ => 0) "C001"
    [test_site 50 100 150, test_site 50 200 250]
    [test_site 50 200 250, test_site 50 100 150]
    (List.Perm.swap (test_site 50 200 250) (test_site 50 100 150) [])
    (by simp)
    (fun a _ b _ => by
      simp [Location.is_close, Location.surface_distance_to,
        Location.DISTANCE_THRESHOLD])
    (by intro s hs; fin_cases hs <;> rfl)

/-- C9 — When the site lookup finds no site covering the record's start
time, the resolver counts the miss (the source also logs an error) and
yields the record downstream *unchanged*: its network, station,
location and channel identifiers are exactly those it arrived with, the
site dictionary is untouched, and the device is recorded in
`no_site_info`. -/
theorem process_datacube_no_site_pass_through (sdist : SDist Location)
    (st st₁ : CubeSites) (r : CubeRecord)
    (hadd : (match CubeSite.from_datacube_trace r with
             | some new_site => CubeSites.add_site sdist st new_site
             | none => .ok st) = .ok st₁)
    (hnone : get_site (lookup_sites st₁.sites r.cube_id) r = none) :
    ∃ st₂, process_datacube sdist st r = .ok (st₂, some r) ∧
      st₂.stats.n_no_site = st₁.stats.n_no_site + 1 ∧
      st₂.sites = st₁.sites ∧
      r.cube_id ∈ st₂.no_site_info := by
  refine ⟨{ st₁ with
      stats := { st₁.stats with n_no_site := st₁.stats.n_no_site + 1 },
      no_site_info := add_no_site_info st₁.no_site_info r.cube_id },
    ?_, rfl, rfl, ?_⟩
  · cases hfdt : CubeSite.from_datacube_trace r with
    | none =>
      simp only [hfdt] at hadd
      cases hadd
      simp only [process_datacube, hfdt, hnone, Except.instMonad, Except.bind, Except.pure]
    | some new_site =>
      simp only [hfdt] at hadd
      simp only [process_datacube, hfdt, hadd, hnone, Except.instMonad, Except.bind, Except.pure]
  · by_cases h : r.cube_id ∈ st₁.no_site_info <;>
      simp [add_no_site_info, h]

/-- Witness for C9: an empty resolver state and a record whose GPS fix
is unusable — no site exists, the record passes through unchanged. -/
theorem process_datacube_no_site_pass_through_witness :
    ∃ st₂, process_datacube (fun _ _ => 0)
        { sites := [], mapper := none } sampleRecord = .ok (st₂, some sampleRecord) ∧
      st₂.stats.n_no_site =
        ({ sites := [], mapper := none } : CubeSites).stats.n_no_site + 1 ∧
      st₂.sites = ({ sites := [], mapper := none } : CubeSites).sites ∧
      sampleRecord.cube_id ∈ st₂.no_site_info :=
  process_datacube_no_site_pass_through (fun _ _ => 0)
    { sites := [], mapper := none } { sites := [], mapper := none }
    sampleRecord (by rfl) (by rfl)

/-- C8 — Completion-log exclusion: every path contained in the done set
(the completion log read fully into `_done_paths` by
`set_progress_file` before discovery) is absent from the discovered
candidate set, for every configuration, directory listing and initial
filename set — so it is never decoded or reprocessed in the run. -/
theorem scan_excludes_done_paths (cfg : LoaderConfig)
    (done_paths : List String) (files : List FileEntry) (seen : List String)
    (p : String) (hp : p ∈ done_paths) :
    ∀ f ∈ scan_datacube_files cfg done_paths files seen, f.path ≠ p := by
  induction files generalizing seen with
  | nil =>
    intro f hf
    simp [scan_datacube_files] at hf
  | cons x xs ih =>
    intro f hf
    rw [scan_datacube_files] at hf
    by_cases h1 : cfg.cube_ids ≠ [] ∧ x.stem ∉ cfg.cube_ids
    · rw [if_pos h1] at hf; exact ih seen f hf
    · rw [if_neg h1] at hf
      by_cases h2 : x.path ∈ done_paths
      · rw [if_pos h2] at hf; exact ih seen f hf
      · rw [if_neg h2] at hf
        by_cases h3 : x.name ∈ seen
        · rw [if_pos h3] at hf; exact ih seen f hf
        · rw [if_neg h3] at hf
          by_cases h4 : x.size < cfg.min_file_size
          · rw [if_pos h4] at hf; exact ih seen f hf
          · rw [if_neg h4] at hf
            by_cases h5 : ∃ t ∈ cfg.start_time, x.mtime < t
            · rw [if_pos h5] at hf; exact ih seen f hf
            · rw [if_neg h5] at hf
              by_cases h6 : ∃ t ∈ cfg.end_time, t < x.mtime
              · rw [if_pos h6] at hf; exact ih seen f hf
              · rw [if_neg h6] at hf
                by_cases h7 : x.is_datacube = false
                · rw [if_pos h7] at hf; exact ih seen f hf
                · rw [if_neg h7] at hf
                  rcases List.mem_cons.mp hf with hfx | hfrec
                  · subst hfx
                    intro hpath
                    exact h2 (hpath ▸ hp)
                  · exact ih (x.name :: seen) f hfrec

/-- Witness for C8: a one-line completion log containing the only
candidate file's path — the scan discovers nothing, in particular no
file with that path. -/
theorem scan_excludes_done_paths_witness :
    "data/C001.001" ∈ ["data/C001.001"] ∧
    ∀ f ∈ scan_datacube_files {} ["data/C001.001"]
        [{ path := "data/C001.001", name := "C001.001", stem := "C001",
           size := 60000000, mtime := 0, is_datacube := true }] [],
      f.path ≠ "data/C001.001" :=
  ⟨by decide,
   scan_excludes_done_paths {} ["data/C001.001"]
     [{ path := "data/C001.001", name := "C001.001", stem := "C001",
        size := 60000000, mtime := 0, is_datacube := true }] []
     "data/C001.001" (by decide)⟩

/-- With a slow consumer, every remaining file can end up decoded and
buffered in the channel: from `n` unclaimed files, `n` more records can
become queued without any consumption. -/
theorem loader_can_fill_queue (cap : ℕ) (hcap : 0 < cap) :
    ∀ (n f q : ℕ), LoaderReachable cap ⟨f + n, 0, q⟩ ⟨f, 0, q + n⟩
  | 0, _, _ => .refl
  | n + 1, f, q => by
    have h1 : LoaderStep cap ⟨f + n + 1, 0, q⟩ ⟨f + n, 1, q⟩ :=
      LoaderStep.start_decode (f + n) 0 q hcap
    have h2 : LoaderStep cap ⟨f + n, 1, q⟩ ⟨f + n, 0, q + 1⟩ :=
      LoaderStep.finish_decode (f + n) 0 q
    have h3 : LoaderReachable cap ⟨f + n, 0, q + 1⟩ ⟨f, 0, q + (n + 1)⟩ := by
      have := loader_can_fill_queue cap hcap n f (q + 1)
      rwa [show q + 1 + n = q + (n + 1) from by omega] at this
    exact .head h1 (.head h2 h3)

/-- C3 — The channel bound is violated: with the default configuration
(`queue_size = 16`, decode semaphore capacity 9) and 17 candidate
files, the execution can reach a state with 17 undelivered decoded
records buffered in the channel — more than the configured capacity —
because `asyncio.Queue()` is created without `maxsize` and producers
never suspend on a "full" queue. -/
theorem loader_queue_exceeds_capacity :
    ∃ s, LoaderReachable (decode_semaphore_cap 16) ⟨17, 0, 0⟩ s ∧
      16 < s.queued := by
  refine ⟨⟨0, 0, 17⟩, ?_, by norm_num⟩
  have h := loader_can_fill_queue (decode_semaphore_cap 16)
    (by decide) 17 0 0
  simpa using h
